import Mathlib

/-!
Verification of the disaster-signal-tracker core against its specification.

The Python sources are shallowly embedded in Lean: pandas rows become
structures with `Option` fields (a missing cell is `none`, `row.get(k, d)`
becomes `Option.getD`), floats become exact rationals `ℚ`, strings become
`String` or `List Char` where character-level processing matters, and
DataFrame-level column operations become explicit per-row functions
parameterised by the list of column names.
-/

/-- Qualitative risk buckets produced by the risk engine
(`src/risk_engine.py`).  `UNKNOWN` is the value `assess_risk_level`
returns for an unrecognised source. -/
inductive RiskLevel
  | LOW
  | MODERATE
  | HIGH
  | EXTREME
  | UNKNOWN
deriving DecidableEq

/-- Qualitative recency buckets produced by `enrich_disaster_data`. -/
inductive Urgency
  | IMMEDIATE
  | HIGH
  | MEDIUM
  | LOW
deriving DecidableEq

/-- A row of the combined disaster feed as consumed by
`DisasterRiskEngine` (`src/risk_engine.py`).  Every field a method reads
through `row.get` is an `Option`; the `getD` defaults below are exactly
the Python defaults. -/
structure EngineRow where
  source : Option String
  event : Option String
  magnitude : Option ℚ
  confidence : Option ℚ
  brightness : Option ℚ
  severity : Option String
  timeVal : Option ℚ
  acqVal : Option ℚ
deriving DecidableEq

/-- Embedding of `DisasterRiskEngine.calculate_earthquake_risk`:
`mag = row.get('magnitude', 0)`, then the < 3.0 / < 5.0 / < 6.5 ladder. -/
def calculate_earthquake_risk (row : EngineRow) : RiskLevel :=
  let mag := row.magnitude.getD 0
  if mag < 3 then RiskLevel.LOW
  else if mag < 5 then RiskLevel.MODERATE
  else if mag < 13/2 then RiskLevel.HIGH
  else RiskLevel.EXTREME

/-- Embedding of `DisasterRiskEngine.calculate_wildfire_risk`:
`risk_score = (confidence/100) * (brightness/400)` with defaults 0,
then the < 0.3 / < 0.6 / < 0.8 ladder. -/
def calculate_wildfire_risk (row : EngineRow) : RiskLevel :=
  let confidence := row.confidence.getD 0
  let brightness := row.brightness.getD 0
  let risk_score := (confidence / 100) * (brightness / 400)
  if risk_score < 3/10 then RiskLevel.LOW
  else if risk_score < 6/10 then RiskLevel.MODERATE
  else if risk_score < 8/10 then RiskLevel.HIGH
  else RiskLevel.EXTREME

/-- Embedding of `DisasterRiskEngine.calculate_weather_risk`:
`severity = row.get('severity', 'Minor')`, `['Extreme', 'Severe']`
map to HIGH, `'Moderate'` to MODERATE, anything else to LOW. -/
def calculate_weather_risk (row : EngineRow) : RiskLevel :=
  let severity := row.severity.getD "Minor"
  if severity = "Extreme" ∨ severity = "Severe" then RiskLevel.HIGH
  else if severity = "Moderate" then RiskLevel.MODERATE
  else RiskLevel.LOW

/-- Embedding of `DisasterRiskEngine.assess_risk_level`: dispatch on
`row.get('source', '')`; unknown sources yield `UNKNOWN`. -/
def assess_risk_level (row : EngineRow) : RiskLevel :=
  let source := row.source.getD ""
  if source = "USGS" then calculate_earthquake_risk row
  else if source = "NASA-FIRMS" then calculate_wildfire_risk row
  else if source = "NOAA" then calculate_weather_risk row
  else RiskLevel.UNKNOWN

/-- Lowercase a character sequence, embedding Python `str.lower()` for
the ASCII data this pipeline handles. -/
def lowerL (s : List Char) : List Char :=
  s.map Char.toLower

/-- Test whether the pattern `p` starts the text `t` (both as character
lists); helper for the Python `in` substring operator. -/
def leadsWith : List Char → List Char → Bool
  | [], _ => true
  | _ :: _, [] => false
  | c :: p, d :: t => c = d && leadsWith p t

/-- Embedding of the Python substring operator `p in t`: `p` occurs
contiguously somewhere in `t`. -/
def occursIn (p : List Char) : List Char → Bool
  | [] => p.isEmpty
  | d :: t => leadsWith p (d :: t) || occursIn p t

/-- Embedding of `DisasterRiskEngine.get_impact_radius`: USGS gives
`max(10, magnitude*50)` (magnitude default 0), NASA-FIRMS gives
`max(5, confidence/10)` (confidence default 50), NOAA gives 25 when
the event name contains "flood" case-insensitively and 50 otherwise,
and any other source gives 10. -/
def get_impact_radius (row : EngineRow) : ℚ :=
  let source := row.source.getD ""
  let event := row.event.getD ""
  if source = "USGS" then max 10 (row.magnitude.getD 0 * 50)
  else if source = "NASA-FIRMS" then max 5 (row.confidence.getD 50 / 10)
  else if source = "NOAA" then
    (if occursIn "flood".data (lowerL event.data) then 25 else 50)
  else 10

/-- Claim C1: for a USGS record with numeric magnitude m the derived
risk level is LOW iff m < 3.0, MODERATE iff 3.0 ≤ m < 5.0, HIGH iff
5.0 ≤ m < 6.5, and EXTREME iff m ≥ 6.5. -/
theorem C1_earthquake_risk_bands (row : EngineRow) (m : ℚ)
    (hsrc : row.source = some "USGS") (hmag : row.magnitude = some m) :
    (assess_risk_level row = RiskLevel.LOW ↔ m < 3) ∧
    (assess_risk_level row = RiskLevel.MODERATE ↔ 3 ≤ m ∧ m < 5) ∧
    (assess_risk_level row = RiskLevel.HIGH ↔ 5 ≤ m ∧ m < 13/2) ∧
    (assess_risk_level row = RiskLevel.EXTREME ↔ 13/2 ≤ m) := by
  simp only [assess_risk_level, calculate_earthquake_risk, hsrc, hmag,
    Option.getD_some]
  norm_num
  split_ifs with h1 h2 h3 <;> simp_all <;> linarith

/-- Witness for C1 at magnitude 5.0: a boundary value landing in HIGH. -/
theorem C1_witness :
    assess_risk_level
      ⟨some "USGS", none, some 5, none, none, none, none, none⟩ =
      RiskLevel.HIGH := by
  have h := C1_earthquake_risk_bands
    ⟨some "USGS", none, some 5, none, none, none, none, none⟩ 5 rfl rfl
  exact h.2.2.1.mpr (by norm_num)

/-- Rounding to one decimal place, embedding pandas `.round(1)`.  The
only inputs it receives in `enrich_disaster_data` are exact multiples
of 0.1, where every tie-breaking convention agrees. -/
def round1 (x : ℚ) : ℚ :=
  (round (x * 10) : ℤ) / 10

/-- The `risk_scores` table of `enrich_disaster_data` combined with the
`.fillna(10)` that follows the `.map`: `UNKNOWN` is not a key of the
Python dict, so it maps to NaN and the fillna turns it into 10. -/
def risk_scores : RiskLevel → ℚ
  | RiskLevel.LOW => 10
  | RiskLevel.MODERATE => 30
  | RiskLevel.HIGH => 70
  | RiskLevel.EXTREME => 100
  | RiskLevel.UNKNOWN => 10

/-- The `urgency_scores` table of `enrich_disaster_data`. -/
def urgency_scores : Urgency → ℚ
  | Urgency.IMMEDIATE => 40
  | Urgency.HIGH => 30
  | Urgency.MEDIUM => 20
  | Urgency.LOW => 10

/-- The `threat_score` column formula of `enrich_disaster_data`:
`(risk_score * 0.7 + urgency_score * 0.3).round(1)`. -/
def threat_score (rl : RiskLevel) (u : Urgency) : ℚ :=
  round1 (risk_scores rl * (7/10) + urgency_scores u * (3/10))

/-- Claim C2: the threat score is `round(risk*0.7 + urgency*0.3, 1)`
over the stated score tables, always lies in [10, 100], and equals
exactly 82.0 for an EXTREME risk with IMMEDIATE urgency. -/
theorem C2_threat_score_formula :
    (risk_scores RiskLevel.LOW = 10 ∧ risk_scores RiskLevel.MODERATE = 30 ∧
      risk_scores RiskLevel.HIGH = 70 ∧ risk_scores RiskLevel.EXTREME = 100 ∧
      risk_scores RiskLevel.UNKNOWN = 10) ∧
    (urgency_scores Urgency.IMMEDIATE = 40 ∧ urgency_scores Urgency.HIGH = 30 ∧
      urgency_scores Urgency.MEDIUM = 20 ∧ urgency_scores Urgency.LOW = 10) ∧
    (∀ rl u, threat_score rl u =
      round1 (risk_scores rl * (7/10) + urgency_scores u * (3/10))) ∧
    (∀ rl u, 10 ≤ threat_score rl u ∧ threat_score rl u ≤ 100) ∧
    threat_score RiskLevel.EXTREME Urgency.IMMEDIATE = 82 := by
  refine ⟨⟨rfl, rfl, rfl, rfl, rfl⟩, ⟨rfl, rfl, rfl, rfl⟩,
    fun rl u => rfl, fun rl u => ?_,
    by norm_num [threat_score, round1, risk_scores, urgency_scores]⟩
  cases rl <;> cases u <;>
    norm_num [threat_score, round1, risk_scores, urgency_scores]

/-- The per-row urgency lambda of `enrich_disaster_data` applied to the
`hours_ago` value: `'IMMEDIATE' if x < 1 else 'HIGH' if x < 6 else`
`'MEDIUM' if x < 24 else 'LOW'`.  A missing or unparseable timestamp
yields NaN hours, for which every `<` comparison is false, so the
chain falls through to LOW; that case is the `none` branch here. -/
def urgency_of_hours : Option ℚ → Urgency
  | none => Urgency.LOW
  | some x =>
    if x < 1 then Urgency.IMMEDIATE
    else if x < 6 then Urgency.HIGH
    else if x < 24 then Urgency.MEDIUM
    else Urgency.LOW

/-- The `hours_ago` column formula: `(now - t).dt.total_seconds()/3600`,
with timestamps carried as rational seconds; `NaT` propagates to NaN,
embedded as `none`. -/
def hours_ago (now : ℚ) (t : Option ℚ) : Option ℚ :=
  t.map (fun tv => (now - tv) / 3600)

/-- Claim C6: urgency is IMMEDIATE iff the age in hours is < 1, HIGH iff
it lies in [1, 6), MEDIUM iff it lies in [6, 24), LOW otherwise; and an
absent occurrence timestamp always yields LOW. -/
theorem C6_urgency_bands (h : ℚ) :
    (urgency_of_hours (some h) = Urgency.IMMEDIATE ↔ h < 1) ∧
    (urgency_of_hours (some h) = Urgency.HIGH ↔ 1 ≤ h ∧ h < 6) ∧
    (urgency_of_hours (some h) = Urgency.MEDIUM ↔ 6 ≤ h ∧ h < 24) ∧
    (urgency_of_hours (some h) = Urgency.LOW ↔ 24 ≤ h) ∧
    (∀ now : ℚ, urgency_of_hours (hours_ago now none) = Urgency.LOW) := by
  have main : (urgency_of_hours (some h) = Urgency.IMMEDIATE ↔ h < 1) ∧
      (urgency_of_hours (some h) = Urgency.HIGH ↔ 1 ≤ h ∧ h < 6) ∧
      (urgency_of_hours (some h) = Urgency.MEDIUM ↔ 6 ≤ h ∧ h < 24) ∧
      (urgency_of_hours (some h) = Urgency.LOW ↔ 24 ≤ h) := by
    simp only [urgency_of_hours]
    split_ifs with h1 h2 h3 <;>
      refine ⟨?_, ?_, ?_, ?_⟩ <;> simp_all <;>
        first
          | linarith
          | (intro hx; linarith)
  exact ⟨main.1, main.2.1, main.2.2.1, main.2.2.2, fun now => rfl⟩

/-- Claim C8: for a NOAA record the derived risk level is HIGH iff the
severity is Extreme or Severe, MODERATE iff it is Moderate, LOW
otherwise, and the weather mapping never produces EXTREME. -/
theorem C8_weather_risk_bands (row : EngineRow)
    (hsrc : row.source = some "NOAA") :
    (assess_risk_level row = RiskLevel.HIGH ↔
      row.severity.getD "Minor" = "Extreme" ∨
        row.severity.getD "Minor" = "Severe") ∧
    (assess_risk_level row = RiskLevel.MODERATE ↔
      row.severity.getD "Minor" = "Moderate") ∧
    (assess_risk_level row = RiskLevel.LOW ↔
      ¬(row.severity.getD "Minor" = "Extreme" ∨
          row.severity.getD "Minor" = "Severe" ∨
          row.severity.getD "Minor" = "Moderate")) ∧
    assess_risk_level row ≠ RiskLevel.EXTREME := by
  have hrw : assess_risk_level row = calculate_weather_risk row := by
    simp [assess_risk_level, hsrc]
  rw [hrw]
  simp only [calculate_weather_risk]
  generalize row.severity.getD "Minor" = s
  split_ifs with h1 h2
  · rcases h1 with h1 | h1 <;> subst h1 <;>
      exact ⟨by simp, by simp, by simp, by simp⟩
  · subst h2
    refine ⟨?_, ?_, ?_, ?_⟩ <;> simp_all
  · refine ⟨?_, ?_, ?_, ?_⟩ <;> simp_all

/-- Witness for C8 at severity "Severe": the derived level is HIGH. -/
theorem C8_witness :
    assess_risk_level
      ⟨some "NOAA", none, none, none, none, some "Severe", none, none⟩ =
      RiskLevel.HIGH :=
  (C8_weather_risk_bands
    ⟨some "NOAA", none, none, none, none, some "Severe", none, none⟩
    rfl).1.mpr (Or.inr rfl)


/-- Claim C9: with all other fields fixed, the impact radius is
monotonically non-decreasing in magnitude for USGS events and in
confidence for NASA-FIRMS fire events. -/
theorem C9_radius_monotone (r : EngineRow) (m1 m2 : ℚ) (hm : m1 ≤ m2) :
    (r.source = some "USGS" →
      get_impact_radius {r with magnitude := some m1} ≤
        get_impact_radius {r with magnitude := some m2}) ∧
    (r.source = some "NASA-FIRMS" →
      get_impact_radius {r with confidence := some m1} ≤
        get_impact_radius {r with confidence := some m2}) := by
  have hu : ∀ m : ℚ, r.source = some "USGS" →
      get_impact_radius {r with magnitude := some m} = max 10 (m * 50) := by
    intro m hsrc
    simp [get_impact_radius, hsrc]
  have hf : ∀ m : ℚ, r.source = some "NASA-FIRMS" →
      get_impact_radius {r with confidence := some m} = max 5 (m / 10) := by
    intro m hsrc
    simp [get_impact_radius, hsrc]
  constructor <;> intro hsrc
  · rw [hu m1 hsrc, hu m2 hsrc]
    have hmul : m1 * 50 ≤ m2 * 50 := by nlinarith
    exact max_le_max le_rfl hmul
  · rw [hf m1 hsrc, hf m2 hsrc]
    have hdiv : m1 / 10 ≤ m2 / 10 := by linarith
    exact max_le_max le_rfl hdiv

/-- Witness for C9: a magnitude-2 quake has no larger radius than a
magnitude-3 quake. -/
theorem C9_witness :
    get_impact_radius
      ⟨some "USGS", none, some 2, none, none, none, none, none⟩ ≤
    get_impact_radius
      ⟨some "USGS", none, some 3, none, none, none, none, none⟩ :=
  (C9_radius_monotone
    ⟨some "USGS", none, none, none, none, none, none, none⟩
    2 3 (by norm_num)).1 rfl

/-- The time-column selection loop of `enrich_disaster_data`:
`for time_col in ['time', 'acq_datetime']: if time_col in df.columns:`
`... break` — the first column present in the DataFrame wins. -/
def chooseTimeCol (cols : List String) : Option String :=
  ["time", "acq_datetime"].find? (fun c => cols.contains c)

/-- Per-row form of the urgency assignment of `enrich_disaster_data`:
the chosen time column (if any) is parsed and turned into an urgency
bucket via `hours_ago`; when no time column exists, no urgency column
is created at all (`none`). -/
def rowUrgency (cols : List String) (now : ℚ) (r : EngineRow) :
    Option Urgency :=
  match chooseTimeCol cols with
  | none => none
  | some c =>
    some (urgency_of_hours (hours_ago now
      (if c = "time" then r.timeVal else r.acqVal)))

/-- Claim C10: when both a 'time' and an 'acq_datetime' column are
present, urgency is computed from the 'time' column only (changing
'acq_datetime' never changes the result), and a row whose 'time' value
is absent or unparseable gets urgency LOW regardless of its
'acq_datetime' value. -/
theorem C10_time_column_priority (cols : List String) (now : ℚ)
    (r : EngineRow) (ht : "time" ∈ cols) (_ha : "acq_datetime" ∈ cols) :
    (∀ v, rowUrgency cols now {r with acqVal := v} = rowUrgency cols now r) ∧
    rowUrgency cols now r = some (urgency_of_hours (hours_ago now r.timeVal)) ∧
    (r.timeVal = none → rowUrgency cols now r = some Urgency.LOW) := by
  have hc : chooseTimeCol cols = some "time" := by
    simp [chooseTimeCol, List.find?, ht]
  refine ⟨fun v => ?_, ?_, fun hnone => ?_⟩
  · simp [rowUrgency, hc]
  · simp [rowUrgency, hc]
  · simp [rowUrgency, hc, hnone, hours_ago, urgency_of_hours]

/-- Witness for C10: with both columns present and a missing 'time'
value but a fresh 'acq_datetime' value, urgency is LOW. -/
theorem C10_witness :
    rowUrgency ["time", "acq_datetime"] 0
      ⟨none, none, none, none, none, none, none, some 0⟩ =
      some Urgency.LOW :=
  (C10_time_column_priority ["time", "acq_datetime"] 0
    ⟨none, none, none, none, none, none, none, some 0⟩
    (by simp) (by simp)).2.2 rfl

/-- A GeoJSON geometry as read by `get_centroid` in `src/fetch_noaa.py`:
a `Point` carries `[lon, lat]` coordinates, a `Polygon` carries a list
of rings of `(lon, lat)` vertex pairs, and any other `type` tag is
`other`. -/
inductive Geometry
  | point (lon lat : ℚ)
  | polygon (rings : List (List (ℚ × ℚ)))
  | other
deriving DecidableEq

/-- Embedding of `get_centroid` (`src/fetch_noaa.py`): `None` geometry
gives no coordinates; a Point returns `(coords[1], coords[0])`, i.e.
`(lat, lon)`; a Polygon with a truthy coordinate list averages the
latitudes and longitudes of its first ring when that ring is non-empty;
every remaining case returns `(None, None)`. -/
def get_centroid : Option Geometry → Option (ℚ × ℚ)
  | none => none
  | some (Geometry.point lon lat) => some (lat, lon)
  | some (Geometry.polygon rings) =>
    match rings with
    | [] => none
    | ring :: _ =>
      if ring.length > 0 then
        some ((ring.map Prod.snd).sum / ring.length,
              (ring.map Prod.fst).sum / ring.length)
      else none
  | some Geometry.other => none

/-- Claim C3: a POINT reduces to its own (lat, lon); a POLYGON with a
non-empty outer ring reduces to the arithmetic means of the ring
vertices' latitudes and longitudes; the square ring
[(0,0),(2,0),(2,2),(0,2)] of (lon,lat) pairs gives lat = 1, lon = 1. -/
theorem C3_centroid (lon lat : ℚ) (ring : List (ℚ × ℚ))
    (rest : List (List (ℚ × ℚ))) (hring : ring ≠ []) :
    get_centroid (some (Geometry.point lon lat)) = some (lat, lon) ∧
    get_centroid (some (Geometry.polygon (ring :: rest))) =
      some ((ring.map Prod.snd).sum / ring.length,
            (ring.map Prod.fst).sum / ring.length) ∧
    get_centroid (some (Geometry.polygon [[(0, 0), (2, 0), (2, 2), (0, 2)]])) =
      some (1, 1) := by
  have hlen : 0 < ring.length := List.length_pos.mpr hring
  refine ⟨rfl, ?_, ?_⟩
  · simp [get_centroid, hlen]
  · norm_num [get_centroid]

/-- Witness for C3 on a concrete two-vertex ring [(0,0),(2,0)]:
mean latitude 0, mean longitude 1. -/
theorem C3_witness :
    get_centroid (some (Geometry.polygon [[(0, 0), (2, 0)]])) =
      some (0, 1) := by
  have h := (C3_centroid 0 0 [(0, 0), (2, 0)] [] (by simp)).2.1
  norm_num at h
  exact h

/-- One feature of the NOAA alerts response, as destructured by
`fetch_noaa_alerts` (`src/fetch_noaa.py`): its geometry (possibly
null) and the properties the row constructor copies. -/
structure NoaaFeature where
  geometry : Option Geometry
  event : Option String
  severity : Option String
  area : Option String
  headline : Option String

/-- One output row of `fetch_noaa_alerts`; `lat`/`lon` are plain
rationals because a row is only built from a successful centroid. -/
structure NoaaRow where
  event : Option String
  severity : Option String
  area : Option String
  headline : Option String
  lat : ℚ
  lon : ℚ

/-- The row constructor inside the `fetch_noaa_alerts` loop:
`lat, lon = get_centroid(geom)` followed by
`if lat is not None and lon is not None: rows.append(...)`. -/
def noaaRowOf (f : NoaaFeature) : Option NoaaRow :=
  match get_centroid f.geometry with
  | some (la, lo) => some ⟨f.event, f.severity, f.area, f.headline, la, lo⟩
  | none => none

/-- Embedding of the record-building loop of `fetch_noaa_alerts`: the
HTTP fetch and JSON decoding are the external collaborator's; the
embedded logic is the per-feature append guarded by the centroid. -/
def fetch_noaa_alerts (feats : List NoaaFeature) : List NoaaRow :=
  feats.filterMap noaaRowOf

/-- Claim C7: every emitted row carries the coordinates of a successful
geometry reduction of some input feature, and exactly the features
whose geometry reduces to a point produce a row — the others are
dropped rather than kept with null coordinates. -/
theorem C7_coords_total (feats : List NoaaFeature) :
    (fetch_noaa_alerts feats).length =
      (feats.filter (fun f => (get_centroid f.geometry).isSome)).length ∧
    ∀ r ∈ fetch_noaa_alerts feats, ∃ f ∈ feats,
      get_centroid f.geometry = some (r.lat, r.lon) := by
  constructor
  · induction feats with
    | nil => rfl
    | cons f fs ih =>
      cases hg : get_centroid f.geometry with
      | none =>
        simpa [fetch_noaa_alerts, noaaRowOf, List.filterMap_cons,
          List.filter_cons, hg] using ih
      | some p =>
        rcases p with ⟨la, lo⟩
        simpa [fetch_noaa_alerts, noaaRowOf, List.filterMap_cons,
          List.filter_cons, hg] using ih
  · intro r hr
    rcases List.mem_filterMap.mp hr with ⟨f, hf, hsome⟩
    refine ⟨f, hf, ?_⟩
    unfold noaaRowOf at hsome
    rcases hg : get_centroid f.geometry with _ | ⟨la, lo⟩ <;> rw [hg] at hsome
    · exact absurd hsome (by simp)
    · cases hsome
      rfl

/-- Witness for C7 on a batch with one point feature and one feature
with absent geometry: one row, carrying the point's coordinates. -/
theorem C7_witness :
    (fetch_noaa_alerts
      [⟨some (Geometry.point 3 4), none, none, none, none⟩,
       ⟨none, none, none, none, none⟩]).length =
      (([⟨some (Geometry.point 3 4), none, none, none, none⟩,
         ⟨none, none, none, none, none⟩] : List NoaaFeature).filter
          (fun f => (get_centroid f.geometry).isSome)).length :=
  (C7_coords_total
    [⟨some (Geometry.point 3 4), none, none, none, none⟩,
     ⟨none, none, none, none, none⟩]).1

/-- One MODIS fire-detection row with the columns the filter in
`get_actual_disasters` (`src/actual_disasters.py`) reads. -/
structure FireRecord where
  confidence : ℚ
  brightness : ℚ
  frp : ℚ
  latitude : ℚ
  longitude : ℚ
deriving DecidableEq

/-- Embedding of the default-configuration fire filter of
`get_actual_disasters`:
`df[(df['confidence'] >= 80) & (df['frp'] >= 100)]`. -/
def major_fires (df : List FireRecord) : List FireRecord :=
  df.filter (fun f => decide (80 ≤ f.confidence) && decide (100 ≤ f.frp))

/-- Claim C5: under the default thresholds a fire record is forwarded
iff its confidence is ≥ 80 and its frp is ≥ 100; a record with
confidence 79 is dropped and one with confidence 80 and frp 100 is
kept. -/
theorem C5_fire_filter_default :
    (∀ (df : List FireRecord) (f : FireRecord),
      f ∈ major_fires df ↔ f ∈ df ∧ 80 ≤ f.confidence ∧ 100 ≤ f.frp) ∧
    major_fires [⟨79, 300, 500, 0, 0⟩] = [] ∧
    major_fires [⟨80, 300, 100, 0, 0⟩] = [⟨80, 300, 100, 0, 0⟩] := by
  refine ⟨fun df f => ?_, by decide, by decide⟩
  simp [major_fires, List.mem_filter]

/-- Helper for `toLower_isWhitespace`: shifting an uppercase-letter
code point down into the lowercase range never produces whitespace. -/
theorem ofNat_shift_isWhitespace (m : ℕ) (h1 : 65 ≤ m) (h2 : m ≤ 90) :
    (Char.ofNat (m + 32)).isWhitespace = (Char.ofNat m).isWhitespace := by
  interval_cases m <;> decide

/-- Lowercasing a character preserves whether it is whitespace. -/
theorem toLower_isWhitespace (c : Char) :
    (Char.toLower c).isWhitespace = c.isWhitespace := by
  simp only [Char.toLower]
  split_ifs with h
  · conv_rhs => rw [← Char.ofNat_toNat c]
    exact ofNat_shift_isWhitespace c.toNat h.1 h.2
  · rfl

/-- Accumulator form of Python `str.split()` with no argument: consume
characters left to right, `acc` holding the current token reversed;
empty pieces are discarded. -/
def splitWsAux : List Char → List Char → List (List Char)
  | [], acc => if acc.isEmpty then [] else [acc.reverse]
  | c :: rest, acc =>
    if c.isWhitespace then
      if acc.isEmpty then splitWsAux rest []
      else acc.reverse :: splitWsAux rest []
    else splitWsAux rest (c :: acc)

/-- Python `str.split()` with no argument: the maximal whitespace-free
runs of the string, in order. -/
def splitWs (s : List Char) : List (List Char) :=
  splitWsAux s []

/-- Lowercasing commutes with whitespace splitting (accumulator form). -/
theorem splitWsAux_lowerL (s : List Char) : ∀ acc : List Char,
    splitWsAux (lowerL s) (lowerL acc) = (splitWsAux s acc).map lowerL := by
  induction s with
  | nil =>
    intro acc
    show splitWsAux [] (lowerL acc) = (splitWsAux [] acc).map lowerL
    by_cases ha : acc = []
    · subst ha; rfl
    · have h1 : acc.isEmpty = false := by simpa [List.isEmpty_iff] using ha
      have h2 : (lowerL acc).isEmpty = false := by
        simp [lowerL, List.isEmpty_iff, ha]
      simp only [splitWsAux, h1, h2, Bool.false_eq_true, if_false,
        List.map_cons, List.map_nil]
      simp [lowerL, List.map_reverse]
  | cons c rest ih =>
    intro acc
    show splitWsAux (Char.toLower c :: lowerL rest) (lowerL acc) = _
    by_cases hw : c.isWhitespace
    · have hw2 : (Char.toLower c).isWhitespace = true := by
        rw [toLower_isWhitespace]; exact hw
      by_cases ha : acc = []
      · subst ha
        simp only [splitWsAux, hw2, hw, if_true]
        exact ih []
      · have h1 : acc.isEmpty = false := by simpa [List.isEmpty_iff] using ha
        have h2 : (lowerL acc).isEmpty = false := by
          simp [lowerL, List.isEmpty_iff, ha]
        simp only [splitWsAux, hw2, hw, if_true, h1, h2, if_false,
          Bool.false_eq_true, List.map_cons]
        have e1 : (lowerL acc).reverse = lowerL acc.reverse := by
          simp [lowerL, List.map_reverse]
        rw [e1]
        exact congrArg _ (ih [])
    · have hw2 : (Char.toLower c).isWhitespace = false := by
        rw [toLower_isWhitespace]; simpa using hw
      have hw1 : c.isWhitespace = false := by simpa using hw
      simp only [splitWsAux, hw2, hw1, Bool.false_eq_true, if_false]
      exact ih (c :: acc)

/-- Lowercasing commutes with whitespace splitting. -/
theorem splitWs_lowerL (s : List Char) :
    splitWs (lowerL s) = (splitWs s).map lowerL :=
  splitWsAux_lowerL s []

/-- A free-text item as consumed by `correlate_with_disasters`
(`src/news_intelligence.py`): `news_item.get('title', '')` and
`news_item.get('summary', '')`. -/
structure NewsItem where
  title : List Char
  summary : List Char

/-- The location columns of one disaster row as read by
`correlate_with_disasters`: `str(disaster.get('area', ''))` and
`str(disaster.get('place', ''))`. -/
structure DisasterRow where
  area : List Char
  place : List Char

/-- The per-pair condition of `correlate_with_disasters`: a non-empty
lowercased area (or place) string some of whose whitespace tokens
longer than three characters occur in the lowercased concatenation of
title and summary. -/
def rowMatches (n : NewsItem) (d : DisasterRow) : Bool :=
  (!(lowerL d.area).isEmpty &&
    (splitWs (lowerL d.area)).any (fun w =>
      decide (3 < w.length) && occursIn w (lowerL n.title ++ lowerL n.summary))) ||
  (!(lowerL d.place).isEmpty &&
    (splitWs (lowerL d.place)).any (fun w =>
      decide (3 < w.length) && occursIn w (lowerL n.title ++ lowerL n.summary)))

/-- The inner loop of `correlate_with_disasters`: one news item at
news index `k` scanned over every (index, disaster) pair, appending
one `(k, j)` correlation per matching disaster index `j`. -/
def corrInner (k : ℕ) (n : NewsItem) (l : List (ℕ × DisasterRow)) :
    List (ℕ × ℕ) :=
  l.filterMap (fun q => if rowMatches n q.2 then some (k, q.1) else none)

/-- Embedding of `correlate_with_disasters`: the nested loop over news
items and disaster rows, recording the (news index, disaster index)
pair of every appended correlation record in append order. -/
def correlate_with_disasters (news : List NewsItem) (ds : List DisasterRow) :
    List (ℕ × ℕ) :=
  news.enum.flatMap (fun p => corrInner p.1 p.2 ds.enum)

/-- The token condition over the lowercased label equals the condition
"some token of the label, lowercased, occurs in the text". -/
theorem tokenAny_lowerL (s text : List Char) :
    ((splitWs (lowerL s)).any (fun w =>
      decide (3 < w.length) && occursIn w text)) =
      ((splitWs s).any (fun w =>
        decide (3 < w.length) && occursIn (lowerL w) text)) := by
  rw [splitWs_lowerL, List.any_map]
  congr 1
  funext w
  simp [Function.comp, lowerL]

/-- The Python truthiness guard on the location string is redundant:
an empty string has no tokens. -/
theorem guard_any (s : List Char) (p : List Char → Bool) :
    (!s.isEmpty && (splitWs s).any p) = (splitWs s).any p := by
  cases s with
  | nil => rfl
  | cons c t => simp [List.isEmpty]

/-- Membership in the inner correlation loop. -/
theorem corrInner_mem (k : ℕ) (n : NewsItem) (l : List (ℕ × DisasterRow))
    (i j : ℕ) :
    ((i, j) ∈ corrInner k n l) ↔
      i = k ∧ ∃ d, (j, d) ∈ l ∧ rowMatches n d = true := by
  unfold corrInner
  rw [List.mem_filterMap]
  constructor
  · rintro ⟨q, hq, heq⟩
    by_cases hm : rowMatches n q.2
    · rw [if_pos hm, Option.some_inj, Prod.mk.injEq] at heq
      exact ⟨heq.1.symm, q.2, by rw [← heq.2]; exact hq, hm⟩
    · rw [if_neg hm] at heq
      cases heq
  · rintro ⟨rfl, d, hd, hm⟩
    exact ⟨(j, d), hd, by simp [hm]⟩

/-- Every pair produced by the inner loop carries the news index `k`. -/
theorem corrInner_fst {k : ℕ} {n : NewsItem} {l : List (ℕ × DisasterRow)}
    {x : ℕ × ℕ} (hx : x ∈ corrInner k n l) : x.1 = k := by
  unfold corrInner at hx
  rcases List.mem_filterMap.mp hx with ⟨q, _, heq⟩
  by_cases hm : rowMatches n q.2
  · rw [if_pos hm, Option.some_inj] at heq
    rw [← heq]
  · rw [if_neg hm] at heq
    cases heq

/-- The disaster indices produced by the inner loop form a sublist of
the scanned index column. -/
theorem corrInner_snd_sublist (k : ℕ) (n : NewsItem)
    (l : List (ℕ × DisasterRow)) :
    ((corrInner k n l).map Prod.snd).Sublist (l.map Prod.fst) := by
  induction l with
  | nil => simp [corrInner]
  | cons q t ih =>
    unfold corrInner at ih ⊢
    rw [List.filterMap_cons]
    by_cases hm : rowMatches n q.2
    · rw [if_pos hm]
      simp only [List.map_cons]
      exact ih.cons₂ q.1
    · rw [if_neg hm]
      simp only [List.map_cons]
      exact ih.cons q.1

/-- No (news index, disaster index) pair is ever recorded twice. -/
theorem correlate_nodup (news : List NewsItem) (ds : List DisasterRow) :
    (correlate_with_disasters news ds).Nodup := by
  unfold correlate_with_disasters
  rw [List.nodup_flatMap]
  constructor
  · intro p _
    have hsub := corrInner_snd_sublist p.1 p.2 ds.enum
    have hnd : (ds.enum.map Prod.fst).Nodup := List.nodup_enum_map_fst ds
    exact List.Nodup.of_map Prod.snd (List.Nodup.sublist hsub hnd)
  · have hnews : List.Pairwise (fun p q : ℕ × NewsItem => p.1 ≠ q.1)
        news.enum := by
      have h := List.nodup_enum_map_fst news
      rwa [List.Nodup, List.pairwise_map] at h
    refine hnews.imp ?_
    intro p q hpq x hxp hxq
    exact hpq (by rw [← corrInner_fst hxp, ← corrInner_fst hxq])

/-- A duplicate-free list contains any given value at most once. -/
theorem nodup_filter_eq_length_le_one {α : Type} [DecidableEq α]
    {l : List α} (h : l.Nodup) (a : α) :
    (l.filter (fun x => decide (x = a))).length ≤ 1 := by
  cases hf : l.filter (fun x => decide (x = a)) with
  | nil => simp
  | cons x t =>
    cases t with
    | nil => simp
    | cons y u =>
      exfalso
      have hnd : (l.filter (fun x => decide (x = a))).Nodup := h.filter _
      rw [hf] at hnd
      have hx : x = a := by
        have hm : x ∈ l.filter (fun x => decide (x = a)) := by
          rw [hf]; exact List.mem_cons_self _ _
        simpa using (List.mem_filter.mp hm).2
      have hy : y = a := by
        have hm : y ∈ l.filter (fun x => decide (x = a)) := by
          rw [hf]; exact List.mem_cons_of_mem _ (List.mem_cons_self _ _)
        simpa using (List.mem_filter.mp hm).2
      rw [List.nodup_cons] at hnd
      exact hnd.1 (by rw [hx, ← hy]; exact List.mem_cons_self _ _)

/-- For a disaster row whose place column is empty, the match condition
is exactly "some whitespace token of the area longer than three
characters occurs, lowercased, in the lowercased title+summary". -/
theorem rowMatches_area_iff (n : NewsItem) (d : DisasterRow)
    (hp : d.place = []) :
    (rowMatches n d = true ↔
      ∃ w ∈ splitWs d.area, 3 < w.length ∧
        occursIn (lowerL w) (lowerL n.title ++ lowerL n.summary) = true) := by
  unfold rowMatches
  rw [hp]
  have hB : (!(lowerL ([] : List Char)).isEmpty) = false := rfl
  rw [hB, Bool.false_and, Bool.or_false, guard_any, tokenAny_lowerL]
  simp only [List.any_eq_true, Bool.and_eq_true, decide_eq_true_eq]

/-- Claim C4: with each event carrying its location label in the area
column (place empty, as the weather normalizer produces), a
corroboration is recorded for a (news, event) index pair iff some
whitespace token of the label longer than three characters occurs
case-insensitively in title+summary; each pair is recorded at most
once; and an event with an empty label is never corroborated. -/
theorem C4_correlator (news : List NewsItem) (ds : List DisasterRow)
    (hplace : ∀ d ∈ ds, d.place = []) :
    (∀ i j n d, news.get? i = some n → ds.get? j = some d →
      (((i, j) ∈ correlate_with_disasters news ds) ↔
        ∃ w ∈ splitWs d.area, 3 < w.length ∧
          occursIn (lowerL w) (lowerL n.title ++ lowerL n.summary) = true)) ∧
    (∀ i j, ((correlate_with_disasters news ds).filter
      (fun x => decide (x = (i, j)))).length ≤ 1) ∧
    (∀ i j n d, news.get? i = some n → ds.get? j = some d → d.area = [] →
      (i, j) ∉ correlate_with_disasters news ds) := by
  have hmem : ∀ i j n d, news.get? i = some n → ds.get? j = some d →
      (((i, j) ∈ correlate_with_disasters news ds) ↔
        rowMatches n d = true) := by
    intro i j n d hn hd
    unfold correlate_with_disasters
    rw [List.mem_flatMap]
    constructor
    · rintro ⟨p, hp, hin⟩
      rcases (corrInner_mem p.1 p.2 ds.enum i j).mp hin with ⟨hik, d2, hd2, hm⟩
      have hpn : p.2 = n := by
        have hmm : (i, p.2) ∈ news.enum := by rw [hik]; exact hp
        have hg := List.mk_mem_enum_iff_get?.mp hmm
        rw [hn] at hg
        exact (Option.some_inj.mp hg).symm
      have hdd : d2 = d := by
        have hg := List.mk_mem_enum_iff_get?.mp hd2
        rw [hd] at hg
        exact (Option.some_inj.mp hg).symm
      rwa [hpn, hdd] at hm
    · intro hm
      refine ⟨(i, n), List.mk_mem_enum_iff_get?.mpr hn, ?_⟩
      exact (corrInner_mem i n ds.enum i j).mpr
        ⟨rfl, d, List.mk_mem_enum_iff_get?.mpr hd, hm⟩
  refine ⟨?_, ?_, ?_⟩
  · intro i j n d hn hd
    rw [hmem i j n d hn hd]
    exact rowMatches_area_iff n d (hplace d (List.get?_mem hd))
  · intro i j
    exact nodup_filter_eq_length_le_one (correlate_nodup news ds) (i, j)
  · intro i j n d hn hd harea hin
    have hx := (hmem i j n d hn hd).mp hin
    rcases (rowMatches_area_iff n d (hplace d (List.get?_mem hd))).mp hx
      with ⟨w, hw, _, _⟩
    rw [harea] at hw
    exact List.not_mem_nil w hw

/-- Witness for C4 on the spec's own example: location label
"Harris County" against the title "Flooding reported in Harris County
area" records the pair (0, 0). -/
theorem C4_witness :
    (0, 0) ∈ correlate_with_disasters
      [⟨"Flooding reported in Harris County area".data, "".data⟩]
      [⟨"Harris County".data, "".data⟩] := by
  have h := (C4_correlator
    [⟨"Flooding reported in Harris County area".data, "".data⟩]
    [⟨"Harris County".data, "".data⟩]
    (by decide)).1 0 0
    ⟨"Flooding reported in Harris County area".data, "".data⟩
    ⟨"Harris County".data, "".data⟩ rfl rfl
  exact h.mpr (by decide)
